import Mathlib

/-!
Verification of the ORGANICA organic-food traceability system.

The development shallowly embeds two layers of the repository:

* `Organica.Backend` - the Express controllers and Mongoose store
  (backend/src/controllers and backend/src/models), modelled as pure
  functions over an explicit `Store` value.  Remote effects (the
  blockchain call, a Mongoose save, a file write) are passed in as
  explicit `Except`-valued outcome parameters, consumed in exactly the
  order the source awaits them.
* `Organica.Contract` - the Solidity contract
  (blockchain/contracts/OrganicFoodTraceability.sol), modelled with
  Solidity mapping semantics: assoc-list mappings with zero-value
  defaults, `require` failures as `Except.error` carrying the revert
  string (a revert discards all state changes, which the `Except`
  encoding gives for free).

Dates and timestamps are integers, Mongo object ids and chain
addresses are naturals, and hashes are strings.
-/

namespace Organica

namespace Backend

/-- A certification row, from backend/src/models (certification schema). -/
structure DbCertification where
  certId : Nat
  name : String
  issuer : String
  certificateHash : String
  issueDate : Int
  expiryDate : Int
  documentUrl : String
  blockchainCertificationId : Nat
  transactionHash : String
  isValid : Bool
deriving Repr, DecidableEq

/-- A product row, from backend/src/models/product.model.js.  The
`batches` field mirrors the reference list the batch controller pushes
into. -/
structure DbProduct where
  productId : Nat
  name : String
  description : String
  productType : String
  farmer : Nat
  batches : List Nat
  certifications : List Nat
  isOrganic : Bool
  blockchainProductId : Nat
  transactionHash : String
  isActive : Bool
deriving Repr, DecidableEq

/-- One scan-history entry of a QR code row. -/
structure ScanInfo where
  timestamp : Int
  ipAddress : String
  userAgent : String
deriving Repr, DecidableEq

/-- A QR code row, from backend/src/models (qrCode schema). -/
structure DbQRCode where
  hash : String
  product : Nat
  imageUrl : String
  verificationUrl : String
  transactionHash : String
  isActive : Bool
  scanHistory : List ScanInfo
deriving Repr, DecidableEq

/-- One embedded traceability record of a batch row. -/
structure DbTraceRecord where
  action : String
  timestamp : Int
  notes : String
  handler : Nat
  blockchainTransactionHash : String
deriving Repr, DecidableEq

/-- A batch row, from backend/src/models/batch.model.js. -/
structure DbBatch where
  batchId : Nat
  harvestDate : Int
  processingMethods : List String
  products : List Nat
  handlers : List Nat
  traceabilityRecords : List DbTraceRecord
  blockchainBatchId : Nat
  transactionHash : String
  isActive : Bool
deriving Repr, DecidableEq

/-- A farmer/user row as written by the registration path. -/
structure DbFarmer where
  farmerId : Nat
  name : String
  location : String
  transactionHash : String
  isActive : Bool
deriving Repr, DecidableEq

/-- The off-chain Mongo store: one list per collection. -/
structure Store where
  farmers : List DbFarmer
  products : List DbProduct
  batches : List DbBatch
  certifications : List DbCertification
  qrcodes : List DbQRCode
deriving Repr, DecidableEq

/-- The empty store. -/
def Store.empty : Store := ⟨[], [], [], [], []⟩

/-- The authenticated request user attached by the auth middleware. -/
structure ReqUser where
  id : Nat
  role : String
deriving Repr, DecidableEq

/-- Outcome of the `authorize` middleware from
backend/src/middleware/auth.middleware.js. -/
inductive AuthResult where
  | notAuthenticated : AuthResult
  | forbidden : AuthResult
  | allowed : AuthResult
deriving Repr, DecidableEq

/-- The `authorize(roles)` middleware (auth.middleware.js lines 34-51):
401 when no user is attached; 403 when the role list is non-empty and
does not contain the single `req.user.role`; otherwise the request
proceeds. -/
def authorize (roles : List String) (user : Option ReqUser) : AuthResult :=
  match user with
  | none => .notAuthenticated
  | some u =>
    if roles.length ≠ 0 ∧ ¬ (roles.contains u.role) then .forbidden
    else .allowed

/-- Outcome of the public certification-verification endpoint. -/
inductive CertVerifyResult where
  | hashRequired : CertVerifyResult
  | notFound : CertVerifyResult
  | revoked : CertVerifyResult
  | expired : CertVerifyResult
  | valid : CertVerifyResult
deriving Repr, DecidableEq

/-- `verifyCertification` (certification.controller.js lines 216-258):
400 when the hash is missing, 404 when no row matches, then the row is
classified - the `isValid` check is written before the expiry check in
the source. -/
def verifyCertification (store : Store) (certificateHash : String)
    (now : Int) : CertVerifyResult :=
  if certificateHash = "" then .hashRequired
  else
    match store.certifications.find? (fun c => c.certificateHash = certificateHash) with
    | none => .notFound
    | some cert =>
      let isExpired := cert.expiryDate < now
      if ¬ cert.isValid then .revoked
      else if isExpired then .expired
      else .valid

/-- Outcome of the public QR-verification endpoint
(qrcode.controller.js lines 117-203).  `serverError` is the outer
catch: a 500 response whose body has no `verified` field. -/
inductive QRVerifyResult where
  | notFound : QRVerifyResult
  | deactivated : QRVerifyResult
  | productNotFound : QRVerifyResult
  | chainError : String → QRVerifyResult
  | chainNotVerified : QRVerifyResult
  | serverError : QRVerifyResult
  | verifiedOk : QRVerifyResult
deriving Repr, DecidableEq

/-- Replace the QR row with the given hash. -/
def updateQRCode (store : Store) (qr : DbQRCode) : Store :=
  { store with qrcodes := store.qrcodes.map (fun q => if q.hash = qr.hash then qr else q) }

/-- `verifyQRCode` (qrcode.controller.js lines 117-203).  `chainAnswer`
is the outcome of the contract call (query failure or a boolean);
`scanSave` is the outcome of the `qrCode.save()` that persists the
scan-history push.  The source awaits the save before sending the
verified response, inside the outer try, so a failing save falls into
the outer catch and answers 500. -/
def verifyQRCode (store : Store) (hash : String)
    (chainAnswer : Except String Bool) (scanSave : Except String Unit)
    (scan : ScanInfo) : QRVerifyResult × Store :=
  match store.qrcodes.find? (fun q => q.hash = hash) with
  | none => (.notFound, store)
  | some qr =>
    if ¬ qr.isActive then (.deactivated, store)
    else
      match store.products.find? (fun p => p.productId = qr.product) with
      | none => (.productNotFound, store)
      | some _ =>
        match chainAnswer with
        | .error msg => (.chainError msg, store)
        | .ok false => (.chainNotVerified, store)
        | .ok true =>
          match scanSave with
          | .error _ => (.serverError, store)
          | .ok _ =>
            (.verifiedOk, updateQRCode store { qr with scanHistory := qr.scanHistory ++ [scan] })

/-- Response shape shared by the mutating controllers: a 2xx payload,
or the 400 / 403 / 404 / 500 error bodies the source sends. -/
inductive CtrlResult (α : Type) where
  | ok : α → CtrlResult α
  | badRequest : String → CtrlResult α
  | forbidden : String → CtrlResult α
  | notFound : String → CtrlResult α
  | serverError : String → CtrlResult α
deriving Repr, DecidableEq

/-- `deleteProduct` (product controller lines 255-277): find, ownership
check, then a soft delete that only clears `isActive`. -/
def deleteProduct (store : Store) (user : ReqUser) (productId : Nat)
    (save : Except String Unit) : CtrlResult Unit × Store :=
  match store.products.find? (fun p => p.productId = productId) with
  | none => (.notFound "Product not found", store)
  | some product =>
    if product.farmer ≠ user.id ∧ user.role ≠ "admin" then
      (.forbidden "Not authorized to delete this product", store)
    else
      match save with
      | .error e => (.serverError e, store)
      | .ok _ =>
        (.ok (),
         { store with
             products := store.products.map
               (fun p => if p.productId = productId then { p with isActive := false } else p) })

/-- `deleteCertification` (certification.controller.js lines 192-209):
find, then a soft delete that only clears `isValid`. -/
def deleteCertification (store : Store) (certId : Nat)
    (save : Except String Unit) : CtrlResult Unit × Store :=
  match store.certifications.find? (fun c => c.certId = certId) with
  | none => (.notFound "Certification not found", store)
  | some _ =>
    match save with
    | .error e => (.serverError e, store)
    | .ok _ =>
      (.ok (),
       { store with
           certifications := store.certifications.map
             (fun c => if c.certId = certId then { c with isValid := false } else c) })

/-- Input fields of the create-certification request body. -/
structure CertInput where
  name : String
  issuer : String
  certificateHash : String
  issueDate : Int
  expiryDate : Int
  documentUrl : String
deriving Repr, DecidableEq

/-- `createCertification` (certification.controller.js lines 10-76):
validation, then the chain transaction, then the store save.  `ledger`
is the outcome of the contract `addCertification` send, yielding the
transaction hash and the chain-assigned certification id; `save` is
the outcome of `certification.save()`.  Any throw lands in the single
catch, a 500 carrying the message of the error thrown. -/
def createCertification (store : Store) (input : CertInput) (newId : Nat)
    (validationOk : Bool) (ledger : Except String (String × Nat))
    (save : Except String Unit) : CtrlResult (String × Nat) × Store :=
  if ¬ validationOk then (.badRequest "validation errors", store)
  else
    match ledger with
    | .error e => (.serverError e, store)
    | .ok (txHash, certificationId) =>
      match save with
      | .error e => (.serverError e, store)
      | .ok _ =>
        (.ok (txHash, certificationId),
         { store with
             certifications := store.certifications ++
               [{ certId := newId
                  name := input.name
                  issuer := input.issuer
                  certificateHash := input.certificateHash
                  issueDate := input.issueDate
                  expiryDate := input.expiryDate
                  documentUrl := input.documentUrl
                  blockchainCertificationId := certificationId
                  transactionHash := txHash
                  isValid := true }] })

/-- Input fields of the create-product request body. -/
structure ProductInput where
  name : String
  description : String
  productType : String
  isOrganic : Bool
deriving Repr, DecidableEq

/-- `createProduct` controller (product controller lines 13-106):
validation, the chain transaction, the QR image file write (outside
the store), then the product save. -/
def createProductCtrl (store : Store) (user : ReqUser) (input : ProductInput)
    (newId : Nat) (validationOk : Bool) (ledger : Except String (String × Nat))
    (fileWrite : Except String Unit) (save : Except String Unit) :
    CtrlResult (String × Nat) × Store :=
  if ¬ validationOk then (.badRequest "validation errors", store)
  else
    match ledger with
    | .error e => (.serverError e, store)
    | .ok (txHash, productId) =>
      match fileWrite with
      | .error e => (.serverError e, store)
      | .ok _ =>
        match save with
        | .error e => (.serverError e, store)
        | .ok _ =>
          (.ok (txHash, productId),
           { store with
               products := store.products ++
                 [{ productId := newId
                    name := input.name
                    description := input.description
                    productType := input.productType
                    farmer := user.id
                    batches := []
                    certifications := []
                    isOrganic := input.isOrganic
                    blockchainProductId := productId
                    transactionHash := txHash
                    isActive := true }] })

/-- `createBatch` controller (batch controller lines 11-96): the
referenced products must all exist (a read, 400 otherwise), then the
chain transaction, then the batch save and the `updateMany` push of
the batch reference into each listed product. -/
def createBatchCtrl (store : Store) (user : ReqUser) (productIds : List Nat)
    (harvestDate : Int) (processingMethods : List String) (now : Int)
    (newId : Nat) (validationOk : Bool) (ledger : Except String (String × Nat))
    (save : Except String Unit) : CtrlResult (String × Nat) × Store :=
  if ¬ validationOk then (.badRequest "validation errors", store)
  else if ¬ (productIds.all (fun pid => store.products.any (fun p => p.productId = pid))) then
    (.badRequest "One or more products not found", store)
  else
    match ledger with
    | .error e => (.serverError e, store)
    | .ok (txHash, batchId) =>
      match save with
      | .error e => (.serverError e, store)
      | .ok _ =>
        (.ok (txHash, batchId),
         { store with
             batches := store.batches ++
               [{ batchId := newId
                  harvestDate := harvestDate
                  processingMethods := processingMethods
                  products := productIds
                  handlers := [user.id]
                  traceabilityRecords :=
                    [{ action := "Batch Created", timestamp := now, notes := ""
                       handler := user.id, blockchainTransactionHash := txHash }]
                  blockchainBatchId := batchId
                  transactionHash := txHash
                  isActive := true }]
             products := store.products.map
               (fun p => if productIds.contains p.productId then
                   { p with batches := p.batches ++ [newId] }
                 else p) })

/-- `addTraceabilityRecord` controller (batch controller lines
181-244): find the batch (404 otherwise), then the chain transaction,
then the handler insert-if-absent, the record push and the batch
save. -/
def addTraceabilityRecordCtrl (store : Store) (user : ReqUser) (batchId : Nat)
    (action notes : String) (now : Int) (validationOk : Bool)
    (ledger : Except String String) (save : Except String Unit) :
    CtrlResult String × Store :=
  if ¬ validationOk then (.badRequest "validation errors", store)
  else
    match store.batches.find? (fun b => b.batchId = batchId) with
    | none => (.notFound "Batch not found", store)
    | some _ =>
      match ledger with
      | .error e => (.serverError e, store)
      | .ok txHash =>
        match save with
        | .error e => (.serverError e, store)
        | .ok _ =>
          (.ok txHash,
           { store with
               batches := store.batches.map
                 (fun b => if b.batchId = batchId then
                     { b with
                         handlers :=
                           if b.handlers.contains user.id then b.handlers
                           else b.handlers ++ [user.id]
                         traceabilityRecords := b.traceabilityRecords ++
                           [{ action := action, timestamp := now, notes := notes
                              handler := user.id, blockchainTransactionHash := txHash }] }
                   else b) })

/-- `generateQRCode` (qrcode.controller.js lines 15-110): find the
product, ownership check, QR image file write (outside the store), the
chain `registerQRCode` send, then the QR row save and the product
save. -/
def generateQRCode (store : Store) (user : ReqUser) (productId : Nat)
    (hash : String) (validationOk : Bool) (fileWrite : Except String Unit)
    (ledger : Except String String) (qrSave : Except String Unit)
    (productSave : Except String Unit) : CtrlResult String × Store :=
  if ¬ validationOk then (.badRequest "validation errors", store)
  else
    match store.products.find? (fun p => p.productId = productId) with
    | none => (.notFound "Product not found", store)
    | some _ =>
      if (store.products.find? (fun p => p.productId = productId)).all
          (fun p => p.farmer ≠ user.id) ∧ user.role ≠ "admin" then
        (.forbidden "Not authorized to generate QR code for this product", store)
      else
        match fileWrite with
        | .error e => (.serverError e, store)
        | .ok _ =>
          match ledger with
          | .error e => (.serverError e, store)
          | .ok txHash =>
            match qrSave with
            | .error e => (.serverError e, store)
            | .ok _ =>
              let store1 :=
                { store with
                    qrcodes := store.qrcodes ++
                      [{ hash := hash, product := productId
                         imageUrl := hash, verificationUrl := hash
                         transactionHash := txHash, isActive := true
                         scanHistory := [] }] }
              match productSave with
              | .error e => (.serverError e, store1)
              | .ok _ => (.ok txHash, store1)

/-- Modelled from the spec: the farmer-registration controller
(backend auth/registration handler) is not present under src - only
its routes and the chain-side `registerFarmer` helper are.  Following
section 4.2: validate, submit the ledger transaction, and only on a
receipt write the mirrored farmer row embedding the transaction
reference; a LedgerError returns to the caller with no store write. -/
def registerFarmer (store : Store) (farmerId : Nat) (name location : String)
    (validationOk : Bool) (ledger : Except String String)
    (save : Except String Unit) : CtrlResult String × Store :=
  if ¬ validationOk then (.badRequest "validation errors", store)
  else
    match ledger with
    | .error e => (.serverError e, store)
    | .ok txHash =>
      match save with
      | .error e => (.serverError e, store)
      | .ok _ =>
        (.ok txHash,
         { store with
             farmers := store.farmers ++
               [{ farmerId := farmerId, name := name, location := location
                  transactionHash := txHash, isActive := true }] })

end Backend

namespace Contract

/-- A location struct of the contract. -/
structure Location where
  name : String
  latitude : String
  longitude : String
  additionalDetails : String
deriving Repr, DecidableEq

/-- Zero value of `Location`. -/
def Location.zero : Location := ⟨"", "", "", ""⟩

/-- A traceability record struct of the contract. -/
structure SolTraceRecord where
  timestamp : Nat
  handlerId : Nat
  handlerRole : String
  action : String
  location : Location
  notes : String
deriving Repr, DecidableEq

/-- A farmer struct of the contract. -/
structure SolFarmer where
  id : Nat
  name : String
  location : Location
  certifications : List String
  isActive : Bool
deriving Repr, DecidableEq

/-- Zero value of `SolFarmer`, the mapping default. -/
def SolFarmer.zero : SolFarmer := ⟨0, "", Location.zero, [], false⟩

/-- A product struct of the contract. -/
structure SolProduct where
  id : Nat
  name : String
  description : String
  productType : String
  farmerId : Nat
  batchId : Nat
  certificationIds : List Nat
  createdAt : Nat
  isOrganic : Bool
deriving Repr, DecidableEq

/-- Zero value of `SolProduct`, the mapping default. -/
def SolProduct.zero : SolProduct := ⟨0, "", "", "", 0, 0, [], 0, false⟩

/-- A batch struct of the contract. -/
structure SolBatch where
  id : Nat
  productIds : List Nat
  harvestDate : String
  processingMethods : List String
  handlerIds : List Nat
  traceabilityRecords : List SolTraceRecord
  isActive : Bool
deriving Repr, DecidableEq

/-- Zero value of `SolBatch`, the mapping default. -/
def SolBatch.zero : SolBatch := ⟨0, [], "", [], [], [], false⟩

/-- A certification struct of the contract. -/
structure SolCertification where
  id : Nat
  name : String
  issuer : String
  certificateHash : String
  issueDate : Nat
  expiryDate : Nat
  isValid : Bool
deriving Repr, DecidableEq

/-- Zero value of `SolCertification`, the mapping default. -/
def SolCertification.zero : SolCertification := ⟨0, "", "", "", 0, 0, false⟩

/-- Read a Solidity mapping: first binding wins, zero value otherwise. -/
def mget (m : List (Nat × α)) (d : α) (k : Nat) : α :=
  match m.find? (fun e => e.1 = k) with
  | some e => e.2
  | none => d

/-- Write a Solidity mapping slot (whole-struct assignment). -/
def mset (m : List (Nat × α)) (k : Nat) (v : α) : List (Nat × α) :=
  (k, v) :: m

/-- The contract storage of OrganicFoodTraceability.sol: the pause
flag, the AccessControl role membership lists, the id counters and
the entity mappings.  Addresses are naturals, `msg.sender` is an
explicit argument and `block.timestamp` an explicit parameter. -/
structure Chain where
  paused : Bool
  adminRole : List Nat
  farmerRole : List Nat
  processorRole : List Nat
  distributorRole : List Nat
  retailerRole : List Nat
  productIdCounter : Nat
  batchIdCounter : Nat
  certificationIdCounter : Nat
  farmers : List (Nat × SolFarmer)
  products : List (Nat × SolProduct)
  batches : List (Nat × SolBatch)
  certifications : List (Nat × SolCertification)
  registeredQRCodes : List String
deriving Repr, DecidableEq

/-- AccessControl `hasRole` over a membership list. -/
def hasRole (role : List Nat) (account : Nat) : Bool :=
  role.contains account

/-- `createBatch` (contract lines 216-251): allocates the next batch
id and stores a batch whose product list is the argument, whose
handler set is the single creator and whose record list is the single
BATCH_CREATED record. -/
def createBatch (c : Chain) (sender : Nat) (productIds : List Nat)
    (harvestDate : String) (processingMethods : List String)
    (timestamp : Nat) : Except String (Chain × Nat) :=
  if ¬ hasRole c.farmerRole sender then .error "AccessControl: account is missing role"
  else if c.paused then .error "Pausable: paused"
  else
    let batchId := c.batchIdCounter + 1
    let creator := mget c.farmers SolFarmer.zero sender
    let initialRecord : SolTraceRecord :=
      { timestamp := timestamp, handlerId := sender, handlerRole := "FARMER"
        action := "BATCH_CREATED", location := creator.location
        notes := "Initial batch creation" }
    let batch : SolBatch :=
      { id := batchId, productIds := productIds, harvestDate := harvestDate
        processingMethods := processingMethods, handlerIds := [sender]
        traceabilityRecords := [initialRecord], isActive := true }
    .ok ({ c with
             batchIdCounter := batchId
             batches := mset c.batches batchId batch }, batchId)

/-- `createProduct` (contract lines 170-207): requires the farmer
role, an unpaused contract, a non-empty name and an active farmer;
batch id 0 means a fresh batch is created synchronously via
`createBatch`; otherwise the given batch must be active; the new
product is stored and its id pushed onto the batch product list. -/
def createProduct (c : Chain) (sender : Nat) (name description productType : String)
    (batchId : Nat) (isOrganic : Bool) (timestamp : Nat) :
    Except String (Chain × Nat) :=
  if ¬ hasRole c.farmerRole sender then .error "AccessControl: account is missing role"
  else if c.paused then .error "Pausable: paused"
  else if name.length = 0 then .error "Name cannot be empty"
  else if ¬ (mget c.farmers SolFarmer.zero sender).isActive then .error "Farmer is not active"
  else
    let resolved : Except String (Chain × Nat) :=
      if batchId = 0 then
        createBatch c sender [] "" [] timestamp
      else if ¬ (mget c.batches SolBatch.zero batchId).isActive then
        .error "Batch is not active"
      else .ok (c, batchId)
    match resolved with
    | .error e => .error e
    | .ok (c1, newBatchId) =>
      let productId := c1.productIdCounter + 1
      let product : SolProduct :=
        { id := productId, name := name, description := description
          productType := productType, farmerId := sender, batchId := newBatchId
          certificationIds := [], createdAt := timestamp, isOrganic := isOrganic }
      let c2 := { c1 with
                    productIdCounter := productId
                    products := mset c1.products productId product }
      let b := mget c2.batches SolBatch.zero newBatchId
      .ok ({ c2 with
               batches := mset c2.batches newBatchId
                 { b with productIds := b.productIds ++ [productId] } }, productId)

/-- `addCertificationToProduct` (contract lines 295-304): requires the
admin role and an unpaused contract, the product and the certification
to exist and the certification to be valid; then pushes the
certification id onto the product. -/
def addCertificationToProduct (c : Chain) (sender : Nat)
    (productId certificationId : Nat) : Except String Chain :=
  if ¬ hasRole c.adminRole sender then .error "AccessControl: account is missing role"
  else if c.paused then .error "Pausable: paused"
  else
    let p := mget c.products SolProduct.zero productId
    if p.id ≠ productId then .error "Product does not exist"
    else
      let cert := mget c.certifications SolCertification.zero certificationId
      if cert.id ≠ certificationId then .error "Certification does not exist"
      else if ¬ cert.isValid then .error "Certification is not valid"
      else
        .ok { c with
                products := mset c.products productId
                  { p with certificationIds := p.certificationIds ++ [certificationId] } }

/-- The handler-role resolution of `addTraceabilityRecord` (contract
lines 335-339): four consecutive `if` statements without `else`, each
overwriting the variable, so the last role held wins. -/
def resolveHandlerRole (c : Chain) (sender : Nat) : String :=
  let handlerRole := "UNKNOWN"
  let handlerRole := if hasRole c.farmerRole sender then "FARMER" else handlerRole
  let handlerRole := if hasRole c.processorRole sender then "PROCESSOR" else handlerRole
  let handlerRole := if hasRole c.distributorRole sender then "DISTRIBUTOR" else handlerRole
  if hasRole c.retailerRole sender then "RETAILER" else handlerRole

/-- `addTraceabilityRecord` (contract lines 316-373): requires an
unpaused contract, an existing active batch and a sender holding at
least one supply-chain role; resolves the handler role, appends the
record and inserts the sender into the handler set if absent. -/
def addTraceabilityRecord (c : Chain) (sender : Nat) (batchId : Nat)
    (action locationName latitude longitude additionalDetails notes : String)
    (timestamp : Nat) : Except String Chain :=
  if c.paused then .error "Pausable: paused"
  else
    let b := mget c.batches SolBatch.zero batchId
    if b.id ≠ batchId then .error "Batch does not exist"
    else if ¬ b.isActive then .error "Batch is not active"
    else if ¬ (hasRole c.farmerRole sender ∨ hasRole c.processorRole sender ∨
               hasRole c.distributorRole sender ∨ hasRole c.retailerRole sender) then
      .error "Unauthorized role"
    else
      let record : SolTraceRecord :=
        { timestamp := timestamp, handlerId := sender
          handlerRole := resolveHandlerRole c sender, action := action
          location := { name := locationName, latitude := latitude
                        longitude := longitude, additionalDetails := additionalDetails }
          notes := notes }
      let b1 := { b with traceabilityRecords := b.traceabilityRecords ++ [record] }
      let b2 := if b1.handlerIds.contains sender then b1
                else { b1 with handlerIds := b1.handlerIds ++ [sender] }
      .ok { c with batches := mset c.batches batchId b2 }

/-- Reading a freshly written mapping slot yields the written value. -/
theorem mget_mset_self (m : List (Nat × α)) (d : α) (k : Nat) (v : α) :
    mget (mset m k v) d k = v := by
  simp [mget, mset]

/-- Under the at-least-one-role require, the sequential overwriting
assignments resolve to the last held role in source order. -/
theorem resolveHandlerRole_precedence (c : Chain) (sender : Nat)
    (hrole : hasRole c.farmerRole sender = true ∨
             hasRole c.processorRole sender = true ∨
             hasRole c.distributorRole sender = true ∨
             hasRole c.retailerRole sender = true) :
    resolveHandlerRole c sender =
      (if hasRole c.retailerRole sender then "RETAILER"
       else if hasRole c.distributorRole sender then "DISTRIBUTOR"
       else if hasRole c.processorRole sender then "PROCESSOR"
       else "FARMER") := by
  unfold resolveHandlerRole
  by_cases hr : hasRole c.retailerRole sender = true
  · simp [hr]
  · by_cases hd : hasRole c.distributorRole sender = true
    · simp [hr, hd]
    · by_cases hp : hasRole c.processorRole sender = true
      · simp [hr, hd, hp]
      · have hf : hasRole c.farmerRole sender = true := by
          rcases hrole with h | h | h | h
          · exact h
          · exact absurd h hp
          · exact absurd h hd
          · exact absurd h hr
        simp [hr, hd, hp, hf]

end Contract

/-! ## Concrete fixtures used by counterexamples and witnesses -/

/-- A certification row that is both revoked and expired. -/
def certRevokedExpired : Backend.DbCertification :=
  { certId := 1, name := "Organic", issuer := "USDA", certificateHash := "h"
    issueDate := 0, expiryDate := 5, documentUrl := ""
    blockchainCertificationId := 1, transactionHash := "0x1", isValid := false }

/-- A store holding exactly the revoked-and-expired certification. -/
def storeRevokedExpired : Backend.Store :=
  { Backend.Store.empty with certifications := [certRevokedExpired] }

/-! ## C3: certification verification precedence -/

/-- C3 counterexample: the claim says that for a certification that is
past expiry the reported reason is `expired` regardless of `isValid`,
expiry being checked first.  On a certification with `isValid = false`
and `expiryDate = 5 < now = 10` the code answers `revoked`: the source
checks `isValid` before `isExpired`. -/
theorem c3_counterexample :
    Backend.verifyCertification storeRevokedExpired "h" 10 =
      Backend.CertVerifyResult.revoked ∧
    Backend.CertVerifyResult.revoked ≠ Backend.CertVerifyResult.expired := by
  exact ⟨rfl, by decide⟩

/-- C3 amended: `verifyCertification` answers NotFound when no row
matches the (non-empty) hash; otherwise revocation is checked first
and takes precedence: `revoked` whenever `isValid = false`, `expired`
when valid but `now > expiryDate`, and verified otherwise.  Revoked
and expired remain mutually exclusive reported reasons. -/
theorem c3_amended (store : Backend.Store) (hash : String) (now : Int)
    (hney : hash ≠ "") :
    (store.certifications.find? (fun c => c.certificateHash = hash) = none →
      Backend.verifyCertification store hash now = .notFound) ∧
    (∀ cert, store.certifications.find? (fun c => c.certificateHash = hash) = some cert →
      (cert.isValid = false →
        Backend.verifyCertification store hash now = .revoked) ∧
      (cert.isValid = true → cert.expiryDate < now →
        Backend.verifyCertification store hash now = .expired) ∧
      (cert.isValid = true → ¬ cert.expiryDate < now →
        Backend.verifyCertification store hash now = .valid)) := by
  unfold Backend.verifyCertification
  refine ⟨fun hnone => ?_, fun cert hfind => ⟨fun hrv => ?_, fun hv hexp => ?_, fun hv hexp => ?_⟩⟩
  · simp [hney, hnone]
  · simp [hney, hfind, hrv]
  · simp [hney, hfind, hv, hexp]
  · simp [hney, hfind, hv, hexp]

/-- C3 witness: the amended theorem applied to the concrete
revoked-and-expired store. -/
theorem c3_amended_witness :
    Backend.verifyCertification storeRevokedExpired "h" 10 =
      Backend.CertVerifyResult.revoked :=
  ((c3_amended storeRevokedExpired "h" 10 (by decide)).2
      certRevokedExpired (by rfl)).1 (by rfl)

/-! ## C9: the authorize middleware -/

/-- C9 counterexample: the claim says a principal holding the admin
capability is allowed for every non-empty required set.  The source
middleware only tests membership of the single `req.user.role` in the
role list, so an admin requesting a farmer-only resource is answered
403. -/
theorem c9_counterexample :
    Backend.authorize ["farmer"] (some { id := 1, role := "admin" }) =
      Backend.AuthResult.forbidden ∧
    Backend.AuthResult.forbidden ≠ Backend.AuthResult.allowed := by
  decide

/-- C9 amended: `authorize` is a pure function that allows an
authenticated principal if and only if the required role list is
empty or contains the principal single role; there is no admin
bypass inside `authorize` (the separate isAdmin/isFarmer middlewares
carry the admin bypass instead). -/
theorem c9_amended (roles : List String) (u : Backend.ReqUser) :
    Backend.authorize roles (some u) = .allowed ↔
      (roles = [] ∨ roles.contains u.role = true) := by
  show (if roles.length ≠ 0 ∧ ¬ (roles.contains u.role = true)
          then Backend.AuthResult.forbidden else Backend.AuthResult.allowed) =
        Backend.AuthResult.allowed ↔ (roles = [] ∨ roles.contains u.role = true)
  by_cases hlen : roles = []
  · subst hlen
    simp
  · by_cases hc : roles.contains u.role = true
    · have hcond : ¬ (roles.length ≠ 0 ∧ ¬ (roles.contains u.role = true)) := by
        intro hh
        exact hh.2 hc
      rw [if_neg hcond]
      simp [hc]
      exact Or.inr (by simpa using hc)
    · have hcond : roles.length ≠ 0 ∧ ¬ (roles.contains u.role = true) :=
        ⟨by simpa [List.length_eq_zero] using hlen, hc⟩
      rw [if_pos hcond]
      simp [hlen, hc]
      exact (by simpa using hc)

/-- A product row bound to the QR fixtures. -/
def productRow : Backend.DbProduct :=
  { productId := 42, name := "Apple", description := "d", productType := "fruit"
    farmer := 7, batches := [], certifications := [], isOrganic := true
    blockchainProductId := 9, transactionHash := "0x3", isActive := true }

/-- An active QR row bound to product 42. -/
def qrActive : Backend.DbQRCode :=
  { hash := "qh", product := 42, imageUrl := "", verificationUrl := ""
    transactionHash := "0x2", isActive := true, scanHistory := [] }

/-- A deactivated QR row bound to product 42. -/
def qrInactive : Backend.DbQRCode :=
  { qrActive with hash := "qd", isActive := false }

/-- A store holding product 42 and both QR rows. -/
def storeQr : Backend.Store :=
  { Backend.Store.empty with products := [productRow], qrcodes := [qrActive, qrInactive] }

/-- A concrete scan event. -/
def scanEvent : Backend.ScanInfo :=
  { timestamp := 100, ipAddress := "ip", userAgent := "ua" }

/-! ## C7: verifyQRCode early branches -/

/-- C7: an unknown hash answers not-found with the store untouched; a
hash whose row has `isActive = false` answers deactivated with the
store untouched, and this holds for every ledger answer and every
save outcome - the deactivation check is decided before the ledger is
consulted, so a deactivated code never verifies even when the ledger
still reports the registration. -/
theorem c7_confirmed (store : Backend.Store) (hash : String)
    (chainAnswer : Except String Bool) (scanSave : Except String Unit)
    (scan : Backend.ScanInfo) :
    (store.qrcodes.find? (fun q => q.hash = hash) = none →
      Backend.verifyQRCode store hash chainAnswer scanSave scan = (.notFound, store)) ∧
    (∀ qr, store.qrcodes.find? (fun q => q.hash = hash) = some qr →
      qr.isActive = false →
      Backend.verifyQRCode store hash chainAnswer scanSave scan = (.deactivated, store)) := by
  unfold Backend.verifyQRCode
  refine ⟨fun hnone => ?_, fun qr hfind hact => ?_⟩
  · simp [hnone]
  · simp [hfind, hact]

/-- C7 witness: the deactivated row answers deactivated even when the
ledger answer is an affirmative registration, and the unknown hash
answers not-found. -/
theorem c7_confirmed_witness :
    Backend.verifyQRCode storeQr "qd" (.ok true) (.ok ()) scanEvent =
      (.deactivated, storeQr) ∧
    Backend.verifyQRCode storeQr "nope" (.ok true) (.ok ()) scanEvent =
      (.notFound, storeQr) :=
  ⟨(c7_confirmed storeQr "qd" (.ok true) (.ok ()) scanEvent).2 qrInactive (by rfl) (by rfl),
   (c7_confirmed storeQr "nope" (.ok true) (.ok ()) scanEvent).1 (by rfl)⟩

/-! ## C6: the scan-history append on a confirmed verification -/

/-- C6 counterexample: the claim says a failure of the scan-history
append does not downgrade an already-successful verification.  With
the ledger confirming the registration and the save of the scan push
failing, the source falls into its outer catch and answers a 500
whose body carries no verified flag: the result is downgraded. -/
theorem c6_counterexample :
    (Backend.verifyQRCode storeQr "qh" (.ok true) (.error "store down") scanEvent).1 =
      Backend.QRVerifyResult.serverError ∧
    Backend.QRVerifyResult.serverError ≠ Backend.QRVerifyResult.verifiedOk := by
  exact ⟨rfl, by decide⟩

/-- C6 amended: once the ledger confirms the registration, the scan
append is not best-effort - the response is verified exactly when the
scan-history save succeeds, and a failing save turns the whole
request into a generic 500 server error (leaving the store
unchanged). -/
theorem c6_amended (store : Backend.Store) (hash : String)
    (scan : Backend.ScanInfo) (qr : Backend.DbQRCode)
    (hfind : store.qrcodes.find? (fun q => q.hash = hash) = some qr)
    (hact : qr.isActive = true)
    (hprod : (store.products.find? (fun p => p.productId = qr.product)).isSome = true) :
    (∀ e, Backend.verifyQRCode store hash (.ok true) (.error e) scan =
      (.serverError, store)) ∧
    Backend.verifyQRCode store hash (.ok true) (.ok ()) scan =
      (.verifiedOk,
       Backend.updateQRCode store { qr with scanHistory := qr.scanHistory ++ [scan] }) := by
  obtain ⟨p, hp⟩ := Option.isSome_iff_exists.mp hprod
  unfold Backend.verifyQRCode
  refine ⟨fun e => ?_, ?_⟩
  · simp [hfind, hact, hp]
  · simp [hfind, hact, hp]

/-- C6 amended witness: the amended theorem applied to the concrete
active-QR store. -/
theorem c6_amended_witness :
    Backend.verifyQRCode storeQr "qh" (.ok true) (.error "store down") scanEvent =
      (.serverError, storeQr) :=
  (c6_amended storeQr "qh" scanEvent qrActive (by rfl) (by rfl) (by rfl)).1 "store down"

/-! ## C1: store-write failure after a successful ledger submission -/

/-- C2: for each state-changing operation, when the ledger call fails
the off-chain store is returned completely unchanged.  The ledger
outcome is consumed before any store mutation in every embedded
controller, mirroring the source order of awaits; farmer registration
is the spec-modelled `registerFarmer`. -/
theorem c2_confirmed (store : Backend.Store) (user : Backend.ReqUser) (e : String) :
    (∀ input newId save,
      Backend.createCertification store input newId true (.error e) save =
        (.serverError e, store)) ∧
    (∀ input newId fileWrite save,
      Backend.createProductCtrl store user input newId true (.error e) fileWrite save =
        (.serverError e, store)) ∧
    (∀ productIds harvestDate processingMethods now newId save,
      (Backend.createBatchCtrl store user productIds harvestDate processingMethods
        now newId true (.error e) save).2 = store) ∧
    (∀ batchId action notes now save,
      (Backend.addTraceabilityRecordCtrl store user batchId action notes now true
        (.error e) save).2 = store) ∧
    (∀ productId hash fileWrite qrSave productSave,
      (Backend.generateQRCode store user productId hash true fileWrite (.error e)
        qrSave productSave).2 = store) ∧
    (∀ farmerId name location save,
      Backend.registerFarmer store farmerId name location true (.error e) save =
        (.serverError e, store)) := by
  refine ⟨fun input newId save => rfl, fun input newId fileWrite save => rfl,
          fun productIds harvestDate processingMethods now newId save => ?_,
          fun batchId action notes now save => ?_,
          fun productId hash fileWrite qrSave productSave => ?_,
          fun farmerId name location save => rfl⟩
  · unfold Backend.createBatchCtrl
    split
    · rfl
    · split
      · rfl
      · rfl
  · unfold Backend.addTraceabilityRecordCtrl
    split
    · rfl
    · split
      · rfl
      · rfl
  · unfold Backend.generateQRCode
    split
    · rfl
    · split
      · rfl
      · split
        · rfl
        · cases fileWrite
          · rfl
          · rfl

/-! ## C4: handler-role resolution precedence -/

/-- A batch fixture with an empty record list. -/
def batchOne : Contract.SolBatch :=
  { id := 1, productIds := [], harvestDate := "", processingMethods := []
    handlerIds := [3], traceabilityRecords := [], isActive := true }

/-- A chain whose account 7 holds both the farmer and the retailer
role, with the active batch 1. -/
def chainMultiRole : Contract.Chain :=
  { paused := false, adminRole := [], farmerRole := [7], processorRole := []
    distributorRole := [], retailerRole := [7]
    productIdCounter := 0, batchIdCounter := 1, certificationIdCounter := 0
    farmers := [], products := [], batches := [(1, batchOne)]
    certifications := [], registeredQRCodes := [] }

/-- C4 counterexample: the claim says a principal holding the farmer
capability together with any lower-precedence capability always
resolves to the farmer role.  The source assigns the role variable in
four consecutive if statements without else, so the last held role
wins: account 7, holding farmer and retailer, is recorded as
RETAILER. -/
theorem c4_counterexample :
    Contract.resolveHandlerRole chainMultiRole 7 = "RETAILER" ∧
    (Contract.addTraceabilityRecord chainMultiRole 7 1 "SHIPPED" "L" "0" "0" "" "n" 50).map
        (fun c => (Contract.mget c.batches Contract.SolBatch.zero 1).traceabilityRecords.map
          (fun r => r.handlerRole)) = .ok ["RETAILER"] ∧
    ("RETAILER" : String) ≠ "FARMER" := by
  refine ⟨rfl, rfl, by decide⟩

/-- C4 amended: `addTraceabilityRecord` resolves exactly one handler
role, but with the fixed precedence retailer > distributor >
processor > farmer (the last matching assignment wins); a principal
holding the farmer capability together with any other supply-chain
capability resolves to that other role, not to farmer. -/
theorem c4_amended (c : Contract.Chain) (sender batchId : Nat)
    (action locationName latitude longitude additionalDetails notes : String)
    (timestamp : Nat)
    (hpause : c.paused = false)
    (hex : (Contract.mget c.batches Contract.SolBatch.zero batchId).id = batchId)
    (hact : (Contract.mget c.batches Contract.SolBatch.zero batchId).isActive = true)
    (hrole : Contract.hasRole c.farmerRole sender = true ∨
             Contract.hasRole c.processorRole sender = true ∨
             Contract.hasRole c.distributorRole sender = true ∨
             Contract.hasRole c.retailerRole sender = true) :
    (Contract.addTraceabilityRecord c sender batchId action locationName latitude
        longitude additionalDetails notes timestamp).map
      (fun c1 => ((Contract.mget c1.batches Contract.SolBatch.zero batchId).traceabilityRecords.getLast?).map
        (fun r => r.handlerRole)) =
      .ok (some
        (if Contract.hasRole c.retailerRole sender then "RETAILER"
         else if Contract.hasRole c.distributorRole sender then "DISTRIBUTOR"
         else if Contract.hasRole c.processorRole sender then "PROCESSOR"
         else "FARMER")) := by
  unfold Contract.addTraceabilityRecord
  rw [if_neg (by simp [hpause])]
  rw [if_neg (by simp [hex])]
  rw [if_neg (by simp [hact])]
  rw [if_neg (not_not_intro hrole)]
  simp only [Except.map, Contract.mget_mset_self]
  by_cases hin : (Contract.mget c.batches Contract.SolBatch.zero batchId).handlerIds.contains sender = true
  · rw [if_pos hin]
    simp only [List.getLast?_concat, Option.map_some']
    rw [Contract.resolveHandlerRole_precedence c sender hrole]
  · rw [if_neg hin]
    simp only [List.getLast?_concat, Option.map_some']
    rw [Contract.resolveHandlerRole_precedence c sender hrole]

/-- C4 amended witness: on the concrete farmer-and-retailer chain the
appended record carries the retailer role. -/
theorem c4_amended_witness :
    (Contract.addTraceabilityRecord chainMultiRole 7 1 "SHIPPED" "L" "0" "0" "" "n" 50).map
      (fun c1 => ((Contract.mget c1.batches Contract.SolBatch.zero 1).traceabilityRecords.getLast?).map
        (fun r => r.handlerRole)) = .ok (some "RETAILER") := by
  have h := c4_amended chainMultiRole 7 1 "SHIPPED" "L" "0" "0" "" "n" 50
    (by rfl) (by rfl) (by rfl) (Or.inl (by rfl))
  simpa using h

/-! ## C5: attaching a certification to a product -/

/-- C5: `addCertificationToProduct` reverts with the StateError revert
reason when the certification is not valid and with the NotFound
revert reasons when either id is unknown (a revert discards every
state change, so the product link list is untouched - the `Except`
encoding returns no successor state); on success the certification id
is appended to the product.  The final part is the historical
preservation: the off-chain revocation path, `deleteCertification`,
never touches the product rows, so an attached link survives a later
revocation. -/
theorem c5_confirmed (c : Contract.Chain) (sender productId certificationId : Nat)
    (hadmin : Contract.hasRole c.adminRole sender = true)
    (hpause : c.paused = false) :
    ((Contract.mget c.products Contract.SolProduct.zero productId).id ≠ productId →
      Contract.addCertificationToProduct c sender productId certificationId =
        .error "Product does not exist") ∧
    ((Contract.mget c.products Contract.SolProduct.zero productId).id = productId →
     (Contract.mget c.certifications Contract.SolCertification.zero certificationId).id ≠ certificationId →
      Contract.addCertificationToProduct c sender productId certificationId =
        .error "Certification does not exist") ∧
    ((Contract.mget c.products Contract.SolProduct.zero productId).id = productId →
     (Contract.mget c.certifications Contract.SolCertification.zero certificationId).id = certificationId →
     (Contract.mget c.certifications Contract.SolCertification.zero certificationId).isValid = false →
      Contract.addCertificationToProduct c sender productId certificationId =
        .error "Certification is not valid") ∧
    ((Contract.mget c.products Contract.SolProduct.zero productId).id = productId →
     (Contract.mget c.certifications Contract.SolCertification.zero certificationId).id = certificationId →
     (Contract.mget c.certifications Contract.SolCertification.zero certificationId).isValid = true →
      Contract.addCertificationToProduct c sender productId certificationId =
        .ok { c with
                products := Contract.mset c.products productId
                  { Contract.mget c.products Contract.SolProduct.zero productId with
                      certificationIds :=
                        (Contract.mget c.products Contract.SolProduct.zero productId).certificationIds
                          ++ [certificationId] } }) ∧
    (∀ store certId save,
      (Backend.deleteCertification store certId save).2.products = store.products) := by
  refine ⟨fun h1 => ?_, fun h1 h2 => ?_, fun h1 h2 h3 => ?_, fun h1 h2 h3 => ?_,
          fun store certId save => ?_⟩
  · unfold Contract.addCertificationToProduct
    rw [if_neg (not_not_intro hadmin), if_neg (by simp [hpause]), if_pos h1]
  · unfold Contract.addCertificationToProduct
    rw [if_neg (not_not_intro hadmin), if_neg (by simp [hpause]),
        if_neg (not_not_intro h1), if_pos h2]
  · unfold Contract.addCertificationToProduct
    rw [if_neg (not_not_intro hadmin), if_neg (by simp [hpause]),
        if_neg (not_not_intro h1), if_neg (not_not_intro h2), if_pos (by simp [h3])]
  · unfold Contract.addCertificationToProduct
    rw [if_neg (not_not_intro hadmin), if_neg (by simp [hpause]),
        if_neg (not_not_intro h1), if_neg (not_not_intro h2), if_neg (by simp [h3])]
  · unfold Backend.deleteCertification
    split
    · rfl
    · split
      · rfl
      · rfl

/-- A chain with admin 9, farmer 7, product 1, an invalid
certification 2 and a valid certification 3. -/
def chainCert : Contract.Chain :=
  { paused := false, adminRole := [9], farmerRole := [7], processorRole := []
    distributorRole := [], retailerRole := []
    productIdCounter := 1, batchIdCounter := 1, certificationIdCounter := 3
    farmers := []
    products := [(1, { id := 1, name := "Apple", description := "d"
                       productType := "fruit", farmerId := 7, batchId := 1
                       certificationIds := [], createdAt := 0, isOrganic := true })]
    batches := [(1, batchOne)]
    certifications :=
      [(2, { id := 2, name := "Organic", issuer := "USDA", certificateHash := "h2"
             issueDate := 0, expiryDate := 100, isValid := false }),
       (3, { id := 3, name := "Fair", issuer := "FLO", certificateHash := "h3"
             issueDate := 0, expiryDate := 100, isValid := true })]
    registeredQRCodes := [] }

/-- C5 witness: attaching the invalid certification 2 to product 1
reverts with the validity revert reason. -/
theorem c5_confirmed_witness :
    Contract.addCertificationToProduct chainCert 9 1 2 =
      .error "Certification is not valid" :=
  ((c5_confirmed chainCert 9 1 2 (by rfl) (by rfl)).2.2.1) (by rfl) (by rfl) (by rfl)

/-! ## C8: createProduct with no batch given -/

/-- C8: when `createProduct` is called with batch id 0, a batch is
created synchronously; the resulting chain has the new batch holding
exactly the one new product id in its product list, and the new
product referencing that batch. -/
theorem c8_confirmed (c : Contract.Chain) (sender : Nat)
    (name description productType : String) (isOrganic : Bool) (timestamp : Nat)
    (hfarmer : Contract.hasRole c.farmerRole sender = true)
    (hpause : c.paused = false)
    (hname : ¬ name.length = 0)
    (hactive : (Contract.mget c.farmers Contract.SolFarmer.zero sender).isActive = true) :
    (Contract.createProduct c sender name description productType 0 isOrganic timestamp).map
        (fun r => r.2) = .ok (c.productIdCounter + 1) ∧
    (Contract.createProduct c sender name description productType 0 isOrganic timestamp).map
        (fun r => (Contract.mget r.1.batches Contract.SolBatch.zero (c.batchIdCounter + 1)).productIds) =
      .ok [c.productIdCounter + 1] ∧
    (Contract.createProduct c sender name description productType 0 isOrganic timestamp).map
        (fun r => (Contract.mget r.1.products Contract.SolProduct.zero (c.productIdCounter + 1)).batchId) =
      .ok (c.batchIdCounter + 1) := by
  refine ⟨?_, ?_, ?_⟩ <;>
    simp [Contract.createProduct, Contract.createBatch, Contract.mget_mset_self,
      Except.map, hfarmer, hpause, hname, hactive]

/-- A chain holding only the active registered farmer 7. -/
def chainFresh : Contract.Chain :=
  { paused := false, adminRole := [9], farmerRole := [7], processorRole := []
    distributorRole := [], retailerRole := []
    productIdCounter := 0, batchIdCounter := 0, certificationIdCounter := 0
    farmers := [(7, { id := 7, name := "F", location := Contract.Location.zero
                      certifications := [], isActive := true })]
    products := [], batches := [], certifications := [], registeredQRCodes := [] }

/-- C8 witness: on the fresh chain the first product lands alone in
the first batch. -/
theorem c8_confirmed_witness :
    (Contract.createProduct chainFresh 7 "Apple" "d" "fruit" 0 true 5).map
        (fun r => (Contract.mget r.1.batches Contract.SolBatch.zero 1).productIds) =
      .ok [1] :=
  (c8_confirmed chainFresh 7 "Apple" "d" "fruit" true 5
    (by rfl) (by rfl) (by decide) (by rfl)).2.1

/-! ## C10: soft deletes -/

/-- C10: `deleteProduct` and `deleteCertification` are soft deletes:
on a hit they rewrite exactly the matching row, clearing only its
isActive respectively isValid flag, leave every other row and every
other collection untouched, and never shrink a collection; on a miss
the store is returned unchanged. -/
theorem c10_confirmed (store : Backend.Store) (user : Backend.ReqUser)
    (productId certId : Nat) (hadmin : user.role = "admin") :
    (store.products.find? (fun p => p.productId = productId) ≠ none →
      Backend.deleteProduct store user productId (.ok ()) =
        (.ok (),
         { store with
             products := store.products.map
               (fun p => if p.productId = productId then { p with isActive := false } else p) })) ∧
    (store.products.find? (fun p => p.productId = productId) = none →
      (Backend.deleteProduct store user productId (.ok ())).2 = store) ∧
    (store.certifications.find? (fun cc => cc.certId = certId) ≠ none →
      Backend.deleteCertification store certId (.ok ()) =
        (.ok (),
         { store with
             certifications := store.certifications.map
               (fun cc => if cc.certId = certId then { cc with isValid := false } else cc) })) ∧
    (store.certifications.find? (fun cc => cc.certId = certId) = none →
      (Backend.deleteCertification store certId (.ok ())).2 = store) ∧
    (Backend.deleteProduct store user productId (.ok ())).2.products.length =
      store.products.length ∧
    (Backend.deleteCertification store certId (.ok ())).2.certifications.length =
      store.certifications.length := by
  have hauth : ∀ p : Backend.DbProduct, ¬ (p.farmer ≠ user.id ∧ user.role ≠ "admin") :=
    fun p hh => hh.2 hadmin
  refine ⟨fun hfp => ?_, fun hfp => ?_, fun hfc => ?_, fun hfc => ?_, ?_, ?_⟩
  · unfold Backend.deleteProduct
    cases hf : store.products.find? (fun p => p.productId = productId) with
    | none => exact absurd hf hfp
    | some p =>
      dsimp only
      rw [if_neg (hauth p)]
  · unfold Backend.deleteProduct
    rw [hfp]
  · unfold Backend.deleteCertification
    cases hf : store.certifications.find? (fun cc => cc.certId = certId) with
    | none => exact absurd hf hfc
    | some cc => rfl
  · unfold Backend.deleteCertification
    rw [hfc]
  · unfold Backend.deleteProduct
    cases hf : store.products.find? (fun p => p.productId = productId) with
    | none => rfl
    | some p =>
      dsimp only
      rw [if_neg (hauth p)]
      simp [List.length_map]
  · unfold Backend.deleteCertification
    cases hf : store.certifications.find? (fun cc => cc.certId = certId) with
    | none => rfl
    | some cc => simp [List.length_map]

/-- A store holding product 42 and the revoked-and-expired
certification 1. -/
def storeFull : Backend.Store :=
  { Backend.Store.empty with
      products := [productRow], certifications := [certRevokedExpired] }

/-- C10 witness: soft-deleting product 42 as an admin rewrites only
its isActive flag. -/
theorem c10_confirmed_witness :
    Backend.deleteProduct storeFull { id := 1, role := "admin" } 42 (.ok ()) =
      (.ok (),
       { storeFull with
           products := storeFull.products.map
             (fun p => if p.productId = 42 then { p with isActive := false } else p) }) :=
  (c10_confirmed storeFull { id := 1, role := "admin" } 42 1 (by rfl)).1 (by decide)

end Organica
